import Mathlib

/-!
Verification of the `print` command pipeline of ingress2gateway
(`cmd/print.go`): namespace resolution, resource acquisition,
conversion-error aggregation and result rendering.

The file shallowly embeds the Go code.  External collaborators that the
command calls but that live outside the examined file — the `i2gw`
conversion package, the kubeconfig namespace lookup, the Kubernetes
client construction and the `printers` serializers — are parameters of
the embedding, collected in an `Env` record: each is an arbitrary pure
function or value standing for the outcome of the external call during
one run.  Writing to standard output is embedded as returning the list
of strings written, in order.  A Go `error` result becomes
`Except String`.
-/

/-- The two concrete resource printers the command can select
(`printers.YAMLPrinter` and `printers.JSONPrinter`). -/
inductive PrinterKind where
  | YAMLPrinter : PrinterKind
  | JSONPrinter : PrinterKind
deriving DecidableEq, Repr

/-- An input Ingress record: the fields of `networkingv1.Ingress` the
pipeline inspects (name and namespace metadata); the routing spec is
only passed through to the conversion collaborator, so it is kept
opaque as a payload string. -/
structure Ingress where
  name : String
  nsOf : String
  payload : String
deriving DecidableEq, Repr

/-- A converted Gateway record (`gatewayv1beta1.Gateway`); only the name
is inspected by the code of this file (for diagnostics), the rest is the
serializable payload. -/
structure Gateway where
  name : String
  payload : String
deriving DecidableEq, Repr

/-- A converted HTTPRoute record (`gatewayv1beta1.HTTPRoute`). -/
structure HTTPRoute where
  name : String
  payload : String
deriving DecidableEq, Repr

/-- The `PrintRunner` struct of `cmd/print.go`.  The Go field
`namespace` is spelled `nsFlag` because `namespace` is reserved in
Lean; `resourcePrinter` is a nilable interface value, embedded as
`Option PrinterKind` (`none` is the Go nil). -/
structure PrintRunner where
  outputFormat : String
  inputFile : String
  nsFlag : String
  allNamespaces : Bool
  resourcePrinter : Option PrinterKind
  namespaceFilter : String
deriving DecidableEq, Repr

/-- Outcomes of the external collaborators for one run.  Each field is
the pure result (or result function) of the corresponding call made by
`cmd/print.go`:

* `kubeNamespace` — the ambient-namespace lookup performed through
  `clientcmd` (`kubeConfig.Namespace()`); it either yields the active
  namespace or fails, in which case no namespace value is available
  (the library returns the empty string alongside the error).
* `constructIngressesFromFile` — `i2gw.ConstructIngressesFromFile`,
  as a function of the input-file path and the namespace filter.
* `getConfig` / `newClient` — `config.GetConfig` and `client.New`.
* `constructIngressesFromCluster` — `i2gw.ConstructIngressesFromCluster`
  through the namespaced client, as a function of the namespace filter.
* `ingresses2GatewaysAndHTTPRoutes` — the conversion collaborator
  `i2gw.Ingresses2GatewaysAndHTTPRoutes`, returning routes, gateways
  and a list of per-record error messages.
* `printGatewayObj` / `printHTTPRouteObj` — `PrintObj` of the selected
  printer on a record: on success the text written to the sink, on
  failure the error message. -/
structure Env where
  kubeNamespace : Except String String
  constructIngressesFromFile : String → String → Except String (List Ingress)
  getConfig : Except String Unit
  newClient : Except String Unit
  constructIngressesFromCluster : String → Except String (List Ingress)
  ingresses2GatewaysAndHTTPRoutes :
    List Ingress → List HTTPRoute × List Gateway × List String
  printGatewayObj : PrinterKind → Gateway → Except String String
  printHTTPRouteObj : PrinterKind → HTTPRoute → Except String String

/-- The function `getNamespaceInCurrentContext` of `cmd/print.go`: it
forwards the `(namespace, error)` pair of the kubeconfig lookup.  A
failed lookup carries no namespace, so the string component is empty in
that case. -/
def getNamespaceInCurrentContext (env : Env) : String × Option String :=
  match env.kubeNamespace with
  | .ok ns => (ns, none)
  | .error e => ("", some e)

/-- The method `initializeResourcePrinter` of `cmd/print.go`: selects
the printer from `outputFormat` ("yaml" and "" give the YAML printer,
"json" the JSON printer) or rejects the format. -/
def initializeResourcePrinter (pr : PrintRunner) : Except String PrintRunner :=
  if pr.outputFormat = "yaml" ∨ pr.outputFormat = "" then
    .ok { pr with resourcePrinter := some .YAMLPrinter }
  else if pr.outputFormat = "json" then
    .ok { pr with resourcePrinter := some .JSONPrinter }
  else
    .error (pr.outputFormat ++ " is not a supported output format")

/-- The method `initializeNamespaceFilter` of `cmd/print.go`:
all-namespaces wins, then the explicit flag, then the ambient
namespace, whose lookup failure is fatal only when no input file was
given. -/
def initializeNamespaceFilter (pr : PrintRunner) (env : Env) :
    Except String PrintRunner :=
  if pr.allNamespaces then
    .ok { pr with namespaceFilter := "" }
  else if pr.nsFlag = "" then
    let nsErr := getNamespaceInCurrentContext env
    if nsErr.2.isSome ∧ pr.inputFile = "" then
      .error (nsErr.2.getD "")
    else
      .ok { pr with namespaceFilter := nsErr.1 }
  else
    .ok { pr with namespaceFilter := pr.nsFlag }

/-- The function `getIngessList` of `cmd/print.go` (source spelling):
acquires the ingress list from the file when `inputFile` is non-empty,
otherwise from the cluster, and rejects an empty result with a message
that names the namespace filter when one is set. -/
def getIngessList (env : Env) (namespaceFilter : String) (inputFile : String) :
    Except String (List Ingress) :=
  let acquired : Except String (List Ingress) :=
    if inputFile ≠ "" then
      match env.constructIngressesFromFile inputFile namespaceFilter with
      | .error e => .error ("failed to open input file: " ++ e)
      | .ok l => .ok l
    else
      match env.getConfig with
      | .error e => .error ("failed to get client config: " ++ e)
      | .ok _ =>
        match env.newClient with
        | .error e => .error ("failed to create client: " ++ e)
        | .ok _ =>
          match env.constructIngressesFromCluster namespaceFilter with
          | .error e =>
            .error ("failed to get ingress resources from kubenetes cluster: " ++ e)
          | .ok l => .ok l
  match acquired with
  | .error e => .error e
  | .ok ingressItems =>
    if ingressItems.length = 0 then
      let msg := "No resources found"
      if namespaceFilter ≠ "" then
        .error (msg ++ " in " ++ namespaceFilter ++ " namespace")
      else
        .error msg
    else
      .ok ingressItems

/-- Dispatch of `PrintObj` on the gateway argument of the runner.  The
printer of the runner is a nilable interface; calling through nil is a
runtime fault in Go, embedded as a failed print (every reachable call
site installs a printer first). -/
def printObjGateway (env : Env) (p : Option PrinterKind) (g : Gateway) :
    Except String String :=
  match p with
  | some k => env.printGatewayObj k g
  | none => .error "nil resource printer"

/-- Dispatch of `PrintObj` on an HTTPRoute, as `printObjGateway`. -/
def printObjHTTPRoute (env : Env) (p : Option PrinterKind) (r : HTTPRoute) :
    Except String String :=
  match p with
  | some k => env.printHTTPRouteObj k r
  | none => .error "nil resource printer"

/-- The text one iteration of the gateway loop of `outputResult` writes
to standard output: the serialized record on success, the diagnostic
line (which names the record) on failure. -/
def renderGateway (env : Env) (p : Option PrinterKind) (g : Gateway) : String :=
  match printObjGateway env p g with
  | .ok s => s
  | .error e => "# Error printing " ++ g.name ++ " HTTPRoute: " ++ e ++ "\n"

/-- The text one iteration of the route loop of `outputResult` writes. -/
def renderHTTPRoute (env : Env) (p : Option PrinterKind) (r : HTTPRoute) : String :=
  match printObjHTTPRoute env p r with
  | .ok s => s
  | .error e => "# Error printing " ++ r.name ++ " HTTPRoute: " ++ e ++ "\n"

/-- The method `outputResult` of `cmd/print.go`: iterates the gateway
slice, then the route slice, writing each record (or its diagnostic) to
standard output.  The returned list is the sequence of writes; the two
Go `for i := range` loops are the two sequential folds. -/
def outputResult (pr : PrintRunner) (env : Env)
    (httpRoutes : List HTTPRoute) (gateways : List Gateway) : List String :=
  let afterGateways :=
    gateways.foldl (fun out g => out ++ [renderGateway env pr.resourcePrinter g]) []
  httpRoutes.foldl
    (fun out r => out ++ [renderHTTPRoute env pr.resourcePrinter r]) afterGateways

/-- The error-aggregation loop of `PrintGatewaysAndHTTPRoutes`: starting
from the header `"\n# Encountered N errors"`, each conversion error is
wrapped around the accumulated message as `"\n" ++ acc ++ " # " ++ e`. -/
def aggregateConversionErrors (errList : List String) : String :=
  errList.foldl (fun acc e => "\n" ++ acc ++ " # " ++ e)
    ("\n# Encountered " ++ toString errList.length ++ " errors")

/-- The method `PrintGatewaysAndHTTPRoutes` of `cmd/print.go`: the whole
run.  `.ok` carries the strings written to standard output; `.error`
carries the message of the returned Go error (nothing is written on the
error paths). -/
def PrintGatewaysAndHTTPRoutes (pr : PrintRunner) (env : Env) :
    Except String (List String) :=
  match initializeResourcePrinter pr with
  | .error e => .error ("failed to initialize resrouce printer: " ++ e)
  | .ok pr1 =>
    match initializeNamespaceFilter pr1 env with
    | .error e => .error ("failed to initialize namespace filter: " ++ e)
    | .ok pr2 =>
      match getIngessList env pr2.namespaceFilter pr2.inputFile with
      | .error e => .error ("failed to get ingresses from source: " ++ e)
      | .ok ingressList =>
        let conv := env.ingresses2GatewaysAndHTTPRoutes ingressList
        if conv.2.2.length > 0 then
          .error (aggregateConversionErrors conv.2.2)
        else
          .ok (outputResult pr2 env conv.1 conv.2.1)

/-! ### Concrete fixtures used by the witness theorems -/

/-- A sample environment in which every external collaborator succeeds:
the lookup finds namespace "default", both sources yield one ingress,
conversion returns one route and one gateway with no errors, and both
printers serialize the payload of the record. -/
def sampleEnv : Env where
  kubeNamespace := .ok "default"
  constructIngressesFromFile := fun _ _ => .ok [⟨"ingress1", "namespace1", "rules1"⟩]
  getConfig := .ok ()
  newClient := .ok ()
  constructIngressesFromCluster := fun _ => .ok [⟨"ingress1", "namespace1", "rules1"⟩]
  ingresses2GatewaysAndHTTPRoutes := fun _ =>
    ([⟨"route1", "routeDoc1"⟩], [⟨"gw1", "gwDoc1"⟩], [])
  printGatewayObj := fun _ g => .ok g.payload
  printHTTPRouteObj := fun _ r => .ok r.payload

/-- The sample environment with a failing ambient-namespace lookup. -/
def envLookupFails : Env := { sampleEnv with kubeNamespace := .error "no current context" }

/-- A freshly constructed runner with every flag at its zero value
except the default output format, as `newPrintCommand` builds it. -/
def runnerDefault : PrintRunner :=
  { outputFormat := "yaml", inputFile := "", nsFlag := "", allNamespaces := false,
    resourcePrinter := none, namespaceFilter := "" }

/-! ### Claims about namespace resolution and printer selection -/

/-- C2: whenever `allNamespaces` is set, `initializeNamespaceFilter`
resolves the filter to the empty string and returns no error, whatever
the explicit namespace flag and the environment are. -/
theorem initializeNamespaceFilter_allNamespaces (pr : PrintRunner) (env : Env)
    (h : pr.allNamespaces = true) :
    initializeNamespaceFilter pr env = .ok { pr with namespaceFilter := "" } := by
  simp [initializeNamespaceFilter, h]

/-- The default runner with the all-namespaces flag set and an explicit
namespace also present. -/
def runnerAllNs : PrintRunner :=
  { runnerDefault with allNamespaces := true, nsFlag := "ns1" }

/-- The default runner reading from an input file. -/
def runnerFile : PrintRunner :=
  { runnerDefault with inputFile := "in.yaml" }

/-- The default runner with an empty output format. -/
def runnerEmptyFormat : PrintRunner :=
  { runnerDefault with outputFormat := "" }

/-- Witness for C2 at a runner with a non-empty explicit namespace. -/
theorem initializeNamespaceFilter_allNamespaces_witness :
    runnerAllNs.allNamespaces = true ∧
      initializeNamespaceFilter runnerAllNs sampleEnv
        = .ok { runnerAllNs with namespaceFilter := "" } :=
  ⟨rfl, initializeNamespaceFilter_allNamespaces runnerAllNs sampleEnv rfl⟩

/-- C3: on a cluster-backed run (no input file) with neither
all-namespaces nor an explicit namespace, a failing ambient-namespace
lookup makes `initializeNamespaceFilter` return the error of the lookup. -/
theorem initializeNamespaceFilter_cluster_lookupFails (pr : PrintRunner) (env : Env)
    (e : String) (hA : pr.allNamespaces = false) (hn : pr.nsFlag = "")
    (hf : pr.inputFile = "") (hl : env.kubeNamespace = .error e) :
    initializeNamespaceFilter pr env = .error e := by
  simp [initializeNamespaceFilter, hA, hn, hf, getNamespaceInCurrentContext, hl]

/-- Witness for C3 at the default runner and the failing-lookup
environment. -/
theorem initializeNamespaceFilter_cluster_lookupFails_witness :
    runnerDefault.allNamespaces = false ∧ runnerDefault.nsFlag = "" ∧
      runnerDefault.inputFile = "" ∧
      envLookupFails.kubeNamespace = .error "no current context" ∧
      initializeNamespaceFilter runnerDefault envLookupFails = .error "no current context" :=
  ⟨rfl, rfl, rfl, rfl,
    initializeNamespaceFilter_cluster_lookupFails runnerDefault envLookupFails
      "no current context" rfl rfl rfl rfl⟩

/-- C4: on a file-backed run (input file given) with neither
all-namespaces nor an explicit namespace, a failing ambient-namespace
lookup is not an error: the filter degrades to the empty string. -/
theorem initializeNamespaceFilter_file_lookupFails (pr : PrintRunner) (env : Env)
    (e : String) (hA : pr.allNamespaces = false) (hn : pr.nsFlag = "")
    (hf : pr.inputFile ≠ "") (hl : env.kubeNamespace = .error e) :
    initializeNamespaceFilter pr env = .ok { pr with namespaceFilter := "" } := by
  simp [initializeNamespaceFilter, hA, hn, hf, getNamespaceInCurrentContext, hl]

/-- Witness for C4 at a file-backed runner and the failing-lookup
environment. -/
theorem initializeNamespaceFilter_file_lookupFails_witness :
    runnerFile.allNamespaces = false ∧ runnerFile.nsFlag = "" ∧
      runnerFile.inputFile ≠ "" ∧
      envLookupFails.kubeNamespace = .error "no current context" ∧
      initializeNamespaceFilter runnerFile envLookupFails
        = .ok { runnerFile with namespaceFilter := "" } :=
  ⟨rfl, rfl, by decide, rfl,
    initializeNamespaceFilter_file_lookupFails runnerFile envLookupFails
      "no current context" rfl rfl (by decide) rfl⟩

/-- C10: the empty output format is accepted and selects the YAML
printer, exactly as the explicit default format "yaml" does. -/
theorem initializeResourcePrinter_emptyFormat (pr : PrintRunner)
    (h : pr.outputFormat = "") :
    initializeResourcePrinter pr = .ok { pr with resourcePrinter := some .YAMLPrinter } ∧
      initializeResourcePrinter { pr with outputFormat := "yaml" }
        = .ok { pr with outputFormat := "yaml", resourcePrinter := some .YAMLPrinter } := by
  refine ⟨?_, ?_⟩
  · simp [initializeResourcePrinter, h]
  · simp [initializeResourcePrinter]

/-- Witness for C10 at a runner whose output format is empty. -/
theorem initializeResourcePrinter_emptyFormat_witness :
    runnerEmptyFormat.outputFormat = "" ∧
      (initializeResourcePrinter runnerEmptyFormat
          = .ok { runnerEmptyFormat with resourcePrinter := some .YAMLPrinter } ∧
        initializeResourcePrinter { runnerEmptyFormat with outputFormat := "yaml" }
          = .ok { runnerEmptyFormat with outputFormat := "yaml", resourcePrinter := some .YAMLPrinter }) :=
  ⟨rfl, initializeResourcePrinter_emptyFormat runnerEmptyFormat rfl⟩

/-! ### Helper lemmas about the two folds -/

/-- Folding "write one rendered line" over a list extends the previous
output with the rendered lines in list order. -/
theorem foldl_push_eq_append {α β : Type} (f : α → β) (l : List α) (init : List β) :
    l.foldl (fun out x => out ++ [f x]) init = init ++ l.map f := by
  induction l generalizing init with
  | nil => simp
  | cons x xs ih => simp [ih]

/-- The starting message survives, surrounded, through the
error-aggregation fold. -/
theorem aggregate_foldl_acc_contained (l : List String) :
    ∀ acc : String, ∃ p q, l.foldl (fun a x => "\n" ++ a ++ " # " ++ x) acc = p ++ acc ++ q := by
  induction l with
  | nil => exact fun acc => ⟨"", "", by simp⟩
  | cons x xs ih =>
    intro acc
    obtain ⟨p, q, hpq⟩ := ih ("\n" ++ acc ++ " # " ++ x)
    refine ⟨p ++ "\n", " # " ++ x ++ q, ?_⟩
    rw [List.foldl_cons, hpq]
    simp [String.append_assoc]

/-- Every list element fed to the error-aggregation fold appears,
surrounded, in its result. -/
theorem aggregate_foldl_mem_contained (l : List String) :
    ∀ acc : String, ∀ e ∈ l,
      ∃ p q, l.foldl (fun a x => "\n" ++ a ++ " # " ++ x) acc = p ++ e ++ q := by
  induction l with
  | nil => intro acc e he; cases he
  | cons x xs ih =>
    intro acc e he
    rw [List.foldl_cons]
    rcases List.mem_cons.mp he with rfl | hmem
    · obtain ⟨p, q, hpq⟩ := aggregate_foldl_acc_contained xs ("\n" ++ acc ++ " # " ++ e)
      refine ⟨p ++ ("\n" ++ acc ++ " # "), q, ?_⟩
      rw [hpq]
      simp [String.append_assoc]
    · exact ih _ e hmem

/-! ### Claims about acquisition, configuration and rendering order -/

/-- C5: whichever acquisition strategy runs, an empty acquired list
makes `getIngessList` fail, with the namespace filter named in the
message exactly when it is non-empty. -/
theorem getIngessList_emptyResult (env : Env) (filter inputFile : String)
    (h : (inputFile ≠ "" ∧ env.constructIngressesFromFile inputFile filter = .ok []) ∨
      (inputFile = "" ∧ env.getConfig = .ok () ∧ env.newClient = .ok () ∧
        env.constructIngressesFromCluster filter = .ok [])) :
    getIngessList env filter inputFile =
      .error (if filter ≠ "" then "No resources found in " ++ filter ++ " namespace"
        else "No resources found") := by
  rcases h with ⟨hf, he⟩ | ⟨hf, hc, hn, he⟩
  · by_cases hflt : filter = ""
    · subst hflt; simp [getIngessList, hf, he]
    · simp [getIngessList, hf, he, hflt]
  · by_cases hflt : filter = ""
    · subst hflt; simp [getIngessList, hf, hc, hn, he]
    · simp [getIngessList, hf, hc, hn, he, hflt]

/-- Environment whose file reader finds no matching ingress document. -/
def envEmptyFile : Env := { sampleEnv with constructIngressesFromFile := fun _ _ => .ok [] }

/-- Witness for C5: file acquisition yields an empty list under filter
"namespace2", so the error names that namespace. -/
theorem getIngessList_emptyResult_witness :
    (("in.yaml" : String) ≠ "" ∧
        envEmptyFile.constructIngressesFromFile "in.yaml" "namespace2" = .ok []) ∧
      getIngessList envEmptyFile "namespace2" "in.yaml" =
        .error (if ("namespace2" : String) ≠ "" then
            "No resources found in " ++ "namespace2" ++ " namespace"
          else "No resources found") :=
  ⟨⟨by decide, rfl⟩,
    getIngessList_emptyResult envEmptyFile "namespace2" "in.yaml" (.inl ⟨by decide, rfl⟩)⟩

/-- C6: an output format other than "yaml", "" and "json" makes the
whole run fail with the unsupported-format error, for every
environment whatsoever — no file read or cluster access can influence
the outcome, so none is ever needed. -/
theorem printRun_unsupportedFormat (pr : PrintRunner)
    (h1 : pr.outputFormat ≠ "yaml") (h2 : pr.outputFormat ≠ "")
    (h3 : pr.outputFormat ≠ "json") :
    ∀ env : Env, PrintGatewaysAndHTTPRoutes pr env =
      .error ("failed to initialize resrouce printer: "
        ++ (pr.outputFormat ++ " is not a supported output format")) := by
  intro env
  simp [PrintGatewaysAndHTTPRoutes, initializeResourcePrinter, h1, h2, h3]

/-- Witness for C6 at format "xml" in the sample environment. -/
theorem printRun_unsupportedFormat_witness :
    ({ runnerDefault with outputFormat := "xml" } : PrintRunner).outputFormat ≠ "yaml" ∧
      ({ runnerDefault with outputFormat := "xml" } : PrintRunner).outputFormat ≠ "" ∧
      ({ runnerDefault with outputFormat := "xml" } : PrintRunner).outputFormat ≠ "json" ∧
      PrintGatewaysAndHTTPRoutes { runnerDefault with outputFormat := "xml" } sampleEnv =
        .error ("failed to initialize resrouce printer: "
          ++ (("xml" : String) ++ " is not a supported output format")) :=
  ⟨by decide, by decide, by decide,
    printRun_unsupportedFormat { runnerDefault with outputFormat := "xml" }
      (by decide) (by decide) (by decide) sampleEnv⟩

/-- C7: the rendered output is exactly the gateway records in their
given order followed by the route records in their given order. -/
theorem outputResult_order (pr : PrintRunner) (env : Env)
    (httpRoutes : List HTTPRoute) (gateways : List Gateway) :
    outputResult pr env httpRoutes gateways =
      gateways.map (renderGateway env pr.resourcePrinter)
        ++ httpRoutes.map (renderHTTPRoute env pr.resourcePrinter) := by
  simp [outputResult, foldl_push_eq_append]

/-! ### Field-preservation lemmas for the initialization steps -/

/-- Printer initialization only touches the printer field. -/
theorem initializeResourcePrinter_ok_fields (pr pr1 : PrintRunner)
    (h : initializeResourcePrinter pr = .ok pr1) :
    pr1.inputFile = pr.inputFile ∧ pr1.nsFlag = pr.nsFlag
      ∧ pr1.allNamespaces = pr.allNamespaces := by
  unfold initializeResourcePrinter at h
  split at h
  · injection h with h
    subst h
    exact ⟨rfl, rfl, rfl⟩
  · split at h
    · injection h with h
      subst h
      exact ⟨rfl, rfl, rfl⟩
    · simp at h

/-- Namespace-filter initialization only touches the filter field. -/
theorem initializeNamespaceFilter_ok_inputFile (pr pr1 : PrintRunner) (env : Env)
    (h : initializeNamespaceFilter pr env = .ok pr1) : pr1.inputFile = pr.inputFile := by
  by_cases hA : pr.allNamespaces
  · simp [initializeNamespaceFilter, hA] at h
    subst h
    rfl
  · by_cases hn : pr.nsFlag = ""
    · by_cases hc : (getNamespaceInCurrentContext env).2.isSome ∧ pr.inputFile = ""
      · simp [initializeNamespaceFilter, hA, hn, hc] at h
      · simp [initializeNamespaceFilter, hA, hn, hc] at h
        subst h
        rfl
    · simp [initializeNamespaceFilter, hA, hn] at h
      subst h
      rfl

/-! ### Claims about conversion errors, render failures and determinism -/

/-- C1: when the conversion collaborator reports at least one error for
the batch, the run returns the single aggregated error, that message
contains every collected error message, and no success output exists —
nothing is rendered. -/
theorem printRun_conversionErrors (pr pr1 pr2 : PrintRunner) (env : Env)
    (ingressList : List Ingress)
    (h1 : initializeResourcePrinter pr = .ok pr1)
    (h2 : initializeNamespaceFilter pr1 env = .ok pr2)
    (h3 : getIngessList env pr2.namespaceFilter pr2.inputFile = .ok ingressList)
    (h4 : (env.ingresses2GatewaysAndHTTPRoutes ingressList).2.2 ≠ []) :
    PrintGatewaysAndHTTPRoutes pr env
        = .error (aggregateConversionErrors
            (env.ingresses2GatewaysAndHTTPRoutes ingressList).2.2) ∧
      (∀ e ∈ (env.ingresses2GatewaysAndHTTPRoutes ingressList).2.2,
        ∃ p q, aggregateConversionErrors
            (env.ingresses2GatewaysAndHTTPRoutes ingressList).2.2 = p ++ e ++ q) ∧
      ∀ out, PrintGatewaysAndHTTPRoutes pr env ≠ .ok out := by
  have hlen : 0 < (env.ingresses2GatewaysAndHTTPRoutes ingressList).2.2.length :=
    List.length_pos.mpr h4
  have hmain : PrintGatewaysAndHTTPRoutes pr env
      = .error (aggregateConversionErrors
          (env.ingresses2GatewaysAndHTTPRoutes ingressList).2.2) := by
    simp [PrintGatewaysAndHTTPRoutes, h1, h2, h3, hlen]
  refine ⟨hmain, ?_, ?_⟩
  · intro e he
    exact aggregate_foldl_mem_contained _ _ e he
  · intro out
    rw [hmain]
    simp

/-- Environment whose conversion collaborator rejects two records. -/
def envConvFails : Env := { sampleEnv with ingresses2GatewaysAndHTTPRoutes := fun _ => ([], [], ["conversion of ingress1 failed", "conversion of ingress2 failed"]) }

/-- The default runner after printer initialization. -/
def runnerYaml : PrintRunner := { runnerDefault with resourcePrinter := some .YAMLPrinter }

/-- The default runner after printer and namespace-filter initialization
against an environment whose ambient namespace is "default". -/
def runnerYamlDefaultNs : PrintRunner := { runnerYaml with namespaceFilter := "default" }

/-- Witness for C1: two conversion errors make the run fail with one
message containing both, and no output is produced. -/
theorem printRun_conversionErrors_witness :
    initializeResourcePrinter runnerDefault = .ok runnerYaml ∧
      initializeNamespaceFilter runnerYaml envConvFails = .ok runnerYamlDefaultNs ∧
      getIngessList envConvFails runnerYamlDefaultNs.namespaceFilter
          runnerYamlDefaultNs.inputFile = .ok [⟨"ingress1", "namespace1", "rules1"⟩] ∧
      (envConvFails.ingresses2GatewaysAndHTTPRoutes
          [⟨"ingress1", "namespace1", "rules1"⟩]).2.2 ≠ [] ∧
      (PrintGatewaysAndHTTPRoutes runnerDefault envConvFails
          = .error (aggregateConversionErrors
              (envConvFails.ingresses2GatewaysAndHTTPRoutes
                [⟨"ingress1", "namespace1", "rules1"⟩]).2.2) ∧
        (∀ e ∈ (envConvFails.ingresses2GatewaysAndHTTPRoutes
            [⟨"ingress1", "namespace1", "rules1"⟩]).2.2,
          ∃ p q, aggregateConversionErrors
              (envConvFails.ingresses2GatewaysAndHTTPRoutes
                [⟨"ingress1", "namespace1", "rules1"⟩]).2.2 = p ++ e ++ q) ∧
        ∀ out, PrintGatewaysAndHTTPRoutes runnerDefault envConvFails ≠ .ok out) :=
  ⟨rfl, rfl, rfl, by simp [envConvFails],
    printRun_conversionErrors runnerDefault runnerYaml runnerYamlDefaultNs envConvFails
      [⟨"ingress1", "namespace1", "rules1"⟩] rfl rfl rfl (by simp [envConvFails])⟩

/-- C8: rendering failures are per-record and non-fatal: the output has
exactly one entry per record, every record whose serialization fails
contributes the diagnostic line naming it, and once the run reaches
rendering it returns success regardless of how many records failed to
serialize. -/
theorem outputResult_renderFailure_nonfatal (pr : PrintRunner) (env : Env)
    (httpRoutes : List HTTPRoute) (gateways : List Gateway) (k : PrinterKind)
    (hp : pr.resourcePrinter = some k) :
    (outputResult pr env httpRoutes gateways).length
        = gateways.length + httpRoutes.length ∧
      (∀ g ∈ gateways, ∀ e, env.printGatewayObj k g = .error e →
        ("# Error printing " ++ g.name ++ " HTTPRoute: " ++ e ++ "\n")
          ∈ outputResult pr env httpRoutes gateways) ∧
      (∀ r ∈ httpRoutes, ∀ e, env.printHTTPRouteObj k r = .error e →
        ("# Error printing " ++ r.name ++ " HTTPRoute: " ++ e ++ "\n")
          ∈ outputResult pr env httpRoutes gateways) ∧
      (∀ pra prb prc : PrintRunner, ∀ ingressList : List Ingress,
        initializeResourcePrinter pra = .ok prb →
        initializeNamespaceFilter prb env = .ok prc →
        getIngessList env prc.namespaceFilter prc.inputFile = .ok ingressList →
        (env.ingresses2GatewaysAndHTTPRoutes ingressList).2.2 = [] →
        PrintGatewaysAndHTTPRoutes pra env
          = .ok (outputResult prc env
              (env.ingresses2GatewaysAndHTTPRoutes ingressList).1
              (env.ingresses2GatewaysAndHTTPRoutes ingressList).2.1)) := by
  have hform : outputResult pr env httpRoutes gateways
      = gateways.map (renderGateway env pr.resourcePrinter)
        ++ httpRoutes.map (renderHTTPRoute env pr.resourcePrinter) := by
    simp [outputResult, foldl_push_eq_append]
  refine ⟨?_, ?_, ?_, ?_⟩
  · rw [hform]
    simp
  · intro g hg e he
    have hr : renderGateway env pr.resourcePrinter g
        = "# Error printing " ++ g.name ++ " HTTPRoute: " ++ e ++ "\n" := by
      simp [renderGateway, printObjGateway, hp, he]
    have hmem := List.mem_map_of_mem (renderGateway env pr.resourcePrinter) hg
    rw [hr] at hmem
    rw [hform]
    exact List.mem_append_left _ hmem
  · intro r hrm e he
    have hr : renderHTTPRoute env pr.resourcePrinter r
        = "# Error printing " ++ r.name ++ " HTTPRoute: " ++ e ++ "\n" := by
      simp [renderHTTPRoute, printObjHTTPRoute, hp, he]
    have hmem := List.mem_map_of_mem (renderHTTPRoute env pr.resourcePrinter) hrm
    rw [hr] at hmem
    rw [hform]
    exact List.mem_append_right _ hmem
  · intro pra prb prc ingressList h1 h2 h3 h4
    simp [PrintGatewaysAndHTTPRoutes, h1, h2, h3, h4]

/-- Environment whose gateway printer always fails to serialize. -/
def envPrintFails : Env := { sampleEnv with printGatewayObj := fun _ g => .error ("cannot marshal " ++ g.name) }

/-- Witness for C8 at one gateway whose serialization fails and one
route that serializes, under the YAML printer. -/
theorem outputResult_renderFailure_nonfatal_witness :
    runnerYaml.resourcePrinter = some .YAMLPrinter ∧
      ((outputResult runnerYaml envPrintFails [⟨"route1", "routeDoc1"⟩]
            [⟨"gw1", "gwDoc1"⟩]).length
          = ([⟨"gw1", "gwDoc1"⟩] : List Gateway).length
            + ([⟨"route1", "routeDoc1"⟩] : List HTTPRoute).length ∧
        (∀ g ∈ ([⟨"gw1", "gwDoc1"⟩] : List Gateway), ∀ e,
          envPrintFails.printGatewayObj .YAMLPrinter g = .error e →
          ("# Error printing " ++ g.name ++ " HTTPRoute: " ++ e ++ "\n")
            ∈ outputResult runnerYaml envPrintFails [⟨"route1", "routeDoc1"⟩]
                [⟨"gw1", "gwDoc1"⟩]) ∧
        (∀ r ∈ ([⟨"route1", "routeDoc1"⟩] : List HTTPRoute), ∀ e,
          envPrintFails.printHTTPRouteObj .YAMLPrinter r = .error e →
          ("# Error printing " ++ r.name ++ " HTTPRoute: " ++ e ++ "\n")
            ∈ outputResult runnerYaml envPrintFails [⟨"route1", "routeDoc1"⟩]
                [⟨"gw1", "gwDoc1"⟩]) ∧
        (∀ pra prb prc : PrintRunner, ∀ ingressList : List Ingress,
          initializeResourcePrinter pra = .ok prb →
          initializeNamespaceFilter prb envPrintFails = .ok prc →
          getIngessList envPrintFails prc.namespaceFilter prc.inputFile = .ok ingressList →
          (envPrintFails.ingresses2GatewaysAndHTTPRoutes ingressList).2.2 = [] →
          PrintGatewaysAndHTTPRoutes pra envPrintFails
            = .ok (outputResult prc envPrintFails
                (envPrintFails.ingresses2GatewaysAndHTTPRoutes ingressList).1
                (envPrintFails.ingresses2GatewaysAndHTTPRoutes ingressList).2.1))) :=
  ⟨rfl, outputResult_renderFailure_nonfatal runnerYaml envPrintFails
    [⟨"route1", "routeDoc1"⟩] [⟨"gw1", "gwDoc1"⟩] .YAMLPrinter rfl⟩

/-- C9: a file-backed run is a deterministic function of its inputs:
two environments that agree on the ambient lookup, the file reader, the
conversion function and the printers give byte-identical results, no
matter what their cluster-side components (config, client, cluster
reader) do; in particular two identical invocations render identical
output. -/
theorem printRun_deterministic (pr : PrintRunner) (env1 env2 : Env)
    (hfile : pr.inputFile ≠ "")
    (hamb : env1.kubeNamespace = env2.kubeNamespace)
    (hread : env1.constructIngressesFromFile = env2.constructIngressesFromFile)
    (hconv : env1.ingresses2GatewaysAndHTTPRoutes = env2.ingresses2GatewaysAndHTTPRoutes)
    (hpg : env1.printGatewayObj = env2.printGatewayObj)
    (hpro : env1.printHTTPRouteObj = env2.printHTTPRouteObj) :
    PrintGatewaysAndHTTPRoutes pr env1 = PrintGatewaysAndHTTPRoutes pr env2 := by
  have hns : ∀ q : PrintRunner,
      initializeNamespaceFilter q env1 = initializeNamespaceFilter q env2 := by
    intro q
    simp [initializeNamespaceFilter, getNamespaceInCurrentContext, hamb]
  have hget : ∀ f file, file ≠ "" →
      getIngessList env1 f file = getIngessList env2 f file := by
    intro f file hf
    simp [getIngessList, hf, hread]
  have hout : ∀ (q : PrintRunner) (routes : List HTTPRoute) (gws : List Gateway),
      outputResult q env1 routes gws = outputResult q env2 routes gws := by
    intro q routes gws
    simp [outputResult, renderGateway, renderHTTPRoute, printObjGateway,
      printObjHTTPRoute, hpg, hpro]
  cases h1 : initializeResourcePrinter pr with
  | error e => simp [PrintGatewaysAndHTTPRoutes, h1]
  | ok pr1 =>
    cases h2 : initializeNamespaceFilter pr1 env1 with
    | error e =>
      have h2' : initializeNamespaceFilter pr1 env2 = .error e := (hns pr1) ▸ h2
      simp [PrintGatewaysAndHTTPRoutes, h1, h2, h2']
    | ok pr2 =>
      have h2' : initializeNamespaceFilter pr1 env2 = .ok pr2 := (hns pr1) ▸ h2
      have hf2 : pr2.inputFile ≠ "" := by
        rw [initializeNamespaceFilter_ok_inputFile pr1 pr2 env1 h2,
          (initializeResourcePrinter_ok_fields pr pr1 h1).1]
        exact hfile
      cases h3 : getIngessList env1 pr2.namespaceFilter pr2.inputFile with
      | error e =>
        have h3' : getIngessList env2 pr2.namespaceFilter pr2.inputFile = .error e :=
          (hget pr2.namespaceFilter pr2.inputFile hf2) ▸ h3
        simp [PrintGatewaysAndHTTPRoutes, h1, h2, h2', h3, h3']
      | ok ingressList =>
        have h3' : getIngessList env2 pr2.namespaceFilter pr2.inputFile = .ok ingressList :=
          (hget pr2.namespaceFilter pr2.inputFile hf2) ▸ h3
        simp [PrintGatewaysAndHTTPRoutes, h1, h2, h2', h3, h3', hconv, hout]

/-- Environment in which every cluster-side collaborator fails; the
file-side collaborators agree with `sampleEnv`. -/
def envClusterDown : Env := { sampleEnv with getConfig := .error "no kubeconfig", newClient := .error "no client", constructIngressesFromCluster := fun _ => .error "cluster unreachable" }

/-- Witness for C9: the same file-backed run against the healthy and
the cluster-down environments yields identical results. -/
theorem printRun_deterministic_witness :
    runnerFile.inputFile ≠ "" ∧
      sampleEnv.kubeNamespace = envClusterDown.kubeNamespace ∧
      sampleEnv.constructIngressesFromFile = envClusterDown.constructIngressesFromFile ∧
      sampleEnv.ingresses2GatewaysAndHTTPRoutes
        = envClusterDown.ingresses2GatewaysAndHTTPRoutes ∧
      sampleEnv.printGatewayObj = envClusterDown.printGatewayObj ∧
      sampleEnv.printHTTPRouteObj = envClusterDown.printHTTPRouteObj ∧
      PrintGatewaysAndHTTPRoutes runnerFile sampleEnv
        = PrintGatewaysAndHTTPRoutes runnerFile envClusterDown :=
  ⟨by decide, rfl, rfl, rfl, rfl, rfl,
    printRun_deterministic runnerFile sampleEnv envClusterDown (by decide) rfl rfl rfl rfl rfl⟩
